import Mathlib

/-!
Verification of the TUF-Client update-orchestration pipeline (src/main.go).

The Go source is shallowly embedded: pure helpers (`NewVersion`,
`verifyingDownloadedFile`, `ComputeSHA256`) become Lean functions; code
that talks to the filesystem, the network, the TUF updater library or the
operator is modelled by passing the results of those external calls in
explicitly (oracle records) and recording the externally visible actions
as an event trace.  `PrintExpirationDate` is left out of the embedding: it
reports components through `float64` arithmetic (`int(d.Hours())` and
friends) and `time.Duration` saturation, whose exact rounding behaviour is
not representable here.
-/

namespace TUFClient

/-- A wall-clock instant as produced by Go `time.Parse` on the layout
`"2006.01.02-15.04.05"`: calendar fields to one-second granularity. -/
structure GoTime where
  year : Nat
  month : Nat
  day : Nat
  hour : Nat
  minute : Nat
  second : Nat
  deriving DecidableEq, Repr

/-- The zero value of Go `time.Time`: January 1, year 1, 00:00:00 UTC.
`time.Parse` leaves the result at this value when it reports an error. -/
def zeroGoTime : GoTime := ⟨1, 1, 1, 0, 0, 0⟩

/-- Gregorian leap-year rule, as used by Go `time.Date` normalisation. -/
def isLeapYear (y : Nat) : Bool :=
  y % 4 == 0 && (y % 100 != 0 || y % 400 == 0)

/-- Number of days of month `m` in year `y` (Go `daysIn`). -/
def daysInMonth (y m : Nat) : Nat :=
  if m = 2 then (if isLeapYear y then 29 else 28)
  else if m = 4 ∨ m = 6 ∨ m = 9 ∨ m = 11 then 30
  else 31

/-- Days from 1970-01-01 to the civil date `(y, m, d)` (proleptic Gregorian
calendar).  The formula is linear in `d`, so an out-of-range day such as
February 29 of a non-leap year denotes the correspondingly later date,
exactly matching Go's `time.Date` normalisation used by `AddDate`. -/
def daysFromCivil (y m d : Int) : Int :=
  let y' := y - (if m ≤ 2 then 1 else 0)
  let era := y'.fdiv 400
  let yoe := y' - era * 400
  let doy := (153 * (m + (if 2 < m then -3 else 9)) + 2) / 5 + d - 1
  let doe := yoe * 365 + yoe / 4 - yoe / 100 + doy
  era * 146097 + doe - 719468

/-- Seconds from the Unix epoch to the instant `t` (taken in UTC, as
`time.Parse` does for a layout without a zone).  Go `Time.Before` /
`Time.After` compare instants, i.e. these numbers. -/
def toSec (t : GoTime) : Int :=
  daysFromCivil t.year t.month t.day * 86400
    + t.hour * 3600 + t.minute * 60 + t.second

/-- Value of a decimal digit character, `none` otherwise. -/
def digitVal (c : Char) : Option Nat :=
  if c.isDigit then some (c.toNat - 48) else none

/-- The decimal value of the digit at position `i` of `cs`, `none` if that
position is not a digit (or out of range). -/
def dig (cs : List Char) (i : Nat) : Option Nat := digitVal (cs.getD i ' ')

/-- Two-digit decimal field starting at position `i`. -/
def num2 (cs : List Char) (i : Nat) : Option Nat := do
  pure ((← dig cs i) * 10 + (← dig cs (i + 1)))

/-- Four-digit decimal field starting at position `i`. -/
def num4 (cs : List Char) (i : Nat) : Option Nat := do
  pure ((← num2 cs i) * 100 + (← num2 cs (i + 2)))

/-- Go `time.Parse` specialised to the fixed layout `"2006.01.02-15.04.05"`
(the only layout the program ever passes, `layout` at src/main.go:45):
exactly four year digits (`stdLongYear`), fixed two-digit month, day,
minute and second fields (`getnum` with `fixed = true`), literal `.` and
`-` separators, and full consumption of the input.  The hour field `"15"`
(`stdHour`) is parsed with `getnum(value, false)`: it takes *two* digits
when the character after the first is also a digit, otherwise a single
digit — so `"2024.01.02-5.04.05"` parses to 05:04:05.  Go's range checks
follow: month 1–12, day valid for the month, hour ≤ 23, minute ≤ 59,
second ≤ 59.  `none` models a parse error. -/
def parseVersion (s : String) : Option GoTime := do
  let cs := s.data
  guard (cs.getD 4 ' ' = '.' ∧ cs.getD 7 ' ' = '.' ∧ cs.getD 10 ' ' = '-')
  let yr ← num4 cs 0
  let mo ← num2 cs 5
  let dy ← num2 cs 8
  let h1 ← dig cs 11
  let (hr, next) :=
    match dig cs 12 with
    | some h2 => (h1 * 10 + h2, 13)
    | none => (h1, 12)
  guard (cs.getD next ' ' = '.' ∧ cs.getD (next + 3) ' ' = '.')
  let mi ← num2 cs (next + 1)
  let sc ← num2 cs (next + 4)
  guard (cs.length = next + 6)
  guard (1 ≤ mo ∧ mo ≤ 12)
  guard (1 ≤ dy ∧ dy ≤ daysInMonth yr mo)
  guard (hr ≤ 23 ∧ mi ≤ 59 ∧ sc ≤ 59)
  pure ⟨yr, mo, dy, hr, mi, sc⟩

/-- `NewVersion` (src/main.go:440-464).  The `layout` argument of the Go
function is always the fixed constant layout, so it is specialised away.
On a parse error Go logs and continues with the zero `time.Time`, which the
`Option.getD zeroGoTime` reproduces; the three-way comparison
(`Before` / `After` / equal) is kept with its original branch structure. -/
def NewVersion (currentVersion indexVersion : String) : Nat :=
  let currentVersionParsed := (parseVersion currentVersion).getD zeroGoTime
  let indexVersionParsed := (parseVersion indexVersion).getD zeroGoTime
  if toSec currentVersionParsed < toSec indexVersionParsed then 1
  else if toSec indexVersionParsed < toSec currentVersionParsed then 0
  else 0

/-! ### SHA-256 (Go `crypto/sha256`, used by `ComputeSHA256`)

A byte is a `Nat < 256`; a word is a `Nat < 2^32`, with overflow made
explicit by reduction `% 4294967296`. -/

/-- Truncation to a 32-bit word. -/
def w32 (n : Nat) : Nat := n % 4294967296

/-- Right rotation of a 32-bit word by `n` bits. -/
def rotr (n x : Nat) : Nat := w32 ((x >>> n) ||| (x <<< (32 - n)))

/-- Bitwise complement within 32 bits. -/
def notw (x : Nat) : Nat := x ^^^ 4294967295

/-- SHA-256 round constants (FIPS 180-4, written in decimal). -/
def shaK : List Nat :=
  [1116352408, 1899447441, 3049323471, 3921009573,
   961987163, 1508970993, 2453635748, 2870763221,
   3624381080, 310598401, 607225278, 1426881987,
   1925078388, 2162078206, 2614888103, 3248222580,
   3835390401, 4022224774, 264347078, 604807628,
   770255983, 1249150122, 1555081692, 1996064986,
   2554220882, 2821834349, 2952996808, 3210313671,
   3336571891, 3584528711, 113926993, 338241895,
   666307205, 773529912, 1294757372, 1396182291,
   1695183700, 1986661051, 2177026350, 2456956037,
   2730485921, 2820302411, 3259730800, 3345764771,
   3516065817, 3600352804, 4094571909, 275423344,
   430227734, 506948616, 659060556, 883997877,
   958139571, 1322822218, 1537002063, 1747873779,
   1955562222, 2024104815, 2227730452, 2361852424,
   2428436474, 2756734187, 3204031479, 3329325298]

/-- The eight 32-bit words of a SHA-256 chaining state. -/
structure Sha256State where
  h0 : Nat
  h1 : Nat
  h2 : Nat
  h3 : Nat
  h4 : Nat
  h5 : Nat
  h6 : Nat
  h7 : Nat
  deriving DecidableEq, Repr

/-- SHA-256 initial hash value (FIPS 180-4, written in decimal). -/
def shaInit : Sha256State :=
  ⟨1779033703, 3144134277, 1013904242, 2773480762,
   1359893119, 2600822924, 528734635, 1541459225⟩

/-- Big-endian 32-bit words from a list of bytes. -/
def toWords : List Nat → List Nat
  | b0 :: b1 :: b2 :: b3 :: rest =>
      (((b0 * 256 + b1) * 256 + b2) * 256 + b3) :: toWords rest
  | _ => []

/-- Message-schedule extension: append `k` further words to `ws`. -/
def extendW (ws : List Nat) : Nat → List Nat
  | 0 => ws
  | k + 1 =>
      let n := ws.length
      let w2 := ws.getD (n - 2) 0
      let w7 := ws.getD (n - 7) 0
      let w15 := ws.getD (n - 15) 0
      let w16 := ws.getD (n - 16) 0
      let s0 := rotr 7 w15 ^^^ rotr 18 w15 ^^^ (w15 >>> 3)
      let s1 := rotr 17 w2 ^^^ rotr 19 w2 ^^^ (w2 >>> 10)
      extendW (ws ++ [w32 (w16 + s0 + w7 + s1)]) k

/-- One SHA-256 round: update the eight working registers with schedule
word `w` and round constant `k`. -/
def shaRound (r : Sha256State) (wk : Nat × Nat) : Sha256State :=
  let ⟨a, b, c, d, e, f, g, h⟩ := r
  let S1 := rotr 6 e ^^^ rotr 11 e ^^^ rotr 25 e
  let ch := (e &&& f) ^^^ (notw e &&& g)
  let t1 := w32 (h + S1 + ch + wk.2 + wk.1)
  let S0 := rotr 2 a ^^^ rotr 13 a ^^^ rotr 22 a
  let mj := (a &&& b) ^^^ (a &&& c) ^^^ (b &&& c)
  let t2 := w32 (S0 + mj)
  ⟨w32 (t1 + t2), a, b, c, w32 (d + t1), e, f, g⟩

/-- Compress one 64-byte block into the chaining state. -/
def shaCompress (st : Sha256State) (block : List Nat) : Sha256State :=
  let ws := extendW (toWords block) 48
  let r := (ws.zip shaK).foldl shaRound st
  ⟨w32 (st.h0 + r.h0), w32 (st.h1 + r.h1), w32 (st.h2 + r.h2),
   w32 (st.h3 + r.h3), w32 (st.h4 + r.h4), w32 (st.h5 + r.h5),
   w32 (st.h6 + r.h6), w32 (st.h7 + r.h7)⟩

/-- Fold the compression function over consecutive 64-byte blocks.  The
first argument bounds the number of blocks (structural recursion on it
keeps the definition kernel-reducible); callers pass at least
`bytes.length / 64`, so it never runs out before the input does. -/
def shaBlocks : Nat → Sha256State → List Nat → Sha256State
  | _, st, [] => st
  | 0, st, _ => st
  | fuel + 1, st, b :: rest =>
      shaBlocks fuel (shaCompress st (b :: rest.take 63)) (rest.drop 63)

/-- Big-endian bytes of an n-byte value. -/
def beBytes : Nat → Nat → List Nat
  | 0, _ => []
  | k + 1, v => beBytes k (v / 256) ++ [v % 256]

/-- SHA-256 padding: `0x80`, zeros to 56 mod 64, then the bit length as a
big-endian 64-bit value. -/
def shaPad (msg : List Nat) : List Nat :=
  let padZeros := (64 - (msg.length + 9) % 64) % 64
  msg ++ 0x80 :: List.replicate padZeros 0 ++ beBytes 8 (msg.length * 8)

/-- The SHA-256 digest of a byte sequence, as 32 bytes. -/
def sha256Bytes (msg : List Nat) : List Nat :=
  let padded := shaPad msg
  let s := shaBlocks (padded.length / 64) shaInit padded
  beBytes 4 s.h0 ++ beBytes 4 s.h1 ++ beBytes 4 s.h2 ++ beBytes 4 s.h3
    ++ beBytes 4 s.h4 ++ beBytes 4 s.h5 ++ beBytes 4 s.h6 ++ beBytes 4 s.h7

/-- Lowercase hexadecimal digit. -/
def hexDigit (n : Nat) : Char :=
  if n < 10 then Char.ofNat (48 + n) else Char.ofNat (87 + n)

/-- Go `fmt.Sprintf("%x", bytes)`: two lowercase hex digits per byte. -/
def hexOfBytes (bytes : List Nat) : String :=
  String.mk (bytes.flatMap fun b => [hexDigit (b / 16 % 16), hexDigit (b % 16)])

/-- The hexadecimal SHA-256 digest of a byte sequence, as `ComputeSHA256`
renders it (src/main.go:550, `fmt.Sprintf("%x", hash)`). -/
def sha256Hex (msg : List Nat) : String := hexOfBytes (sha256Bytes msg)

/-! ### Manifest index, filesystem and the integrity verifier -/

/-- The anonymous `Hashes` struct of `indexInfo` (src/main.go:36-38). -/
structure indexHashes where
  Sha256 : String
  deriving DecidableEq, Repr

/-- `indexInfo` (src/main.go:34-40): one record of the manifest index. -/
structure indexInfo where
  Length : Int
  Hashes : indexHashes
  Version : String
  deriving DecidableEq, Repr

/-- The Go zero value of `indexInfo`. -/
def zeroIndexInfo : indexInfo := ⟨0, ⟨""⟩, ""⟩

/-- A parsed manifest: the `map[string]indexInfo` produced by
`json.Unmarshal`, as an association list (Go maps have unique keys).
`none` stands for the nil map left behind when `Unmarshal` reports an
error (the program logs the error and carries on with the nil map). -/
abbrev Manifest := List (String × indexInfo)

/-- Go map indexing `data["<key>"]`: indexing a nil map or a missing key
yields the zero value, never an error. -/
def mapLookup (data : Option Manifest) (key : String) : indexInfo :=
  match data with
  | none => zeroIndexInfo
  | some m => ((m.find? fun p => p.1 == key).map Prod.snd).getD zeroIndexInfo

/-- A filesystem snapshot: full contents of each readable path. -/
def FS := String → Option (List Nat)

/-- `ComputeSHA256` (src/main.go:531-551): open the file (an unreadable
path is the error case), stream its full contents through SHA-256, and
render the digest as lowercase hex. -/
def ComputeSHA256 (fs : FS) (filePath : String) : Except String String :=
  match fs filePath with
  | none => .error "failed to open file"
  | some content => .ok (sha256Hex content)

/-- `verifyingDownloadedFile` (src/main.go:497-529).  In Go the first
argument is the index.json *contents* as a string, re-parsed here with
`json.Unmarshal`; `data` is that parse's result (`none` = parse error =
nil map).  The declared digest is whatever
`data["nebula-standalone"].Hashes.Sha256` yields; a hash-computation error
returns 0, otherwise the two hex strings are compared with `==`. -/
def verifyingDownloadedFile (data : Option Manifest) (fs : FS)
    (DonwloadedFilePath : String) : Nat :=
  let indexHash := (mapLookup data "nebula-standalone").Hashes.Sha256
  match ComputeSHA256 fs DonwloadedFilePath with
  | .error _ => 0
  | .ok downloadedFilehash => if indexHash = downloadedFilehash then 1 else 0

/-- ASCII lower-casing of one character (for stating case-insensitive
comparison, which the spec claims and the code does not perform). -/
def asciiLower (c : Char) : Char :=
  if 'A' ≤ c ∧ c ≤ 'Z' then Char.ofNat (c.toNat + 32) else c

/-- ASCII lower-casing of a string. -/
def lowerStr (s : String) : String := String.mk (s.data.map asciiLower)

/-- The filesystem holding exactly one file, the empty downloaded file. -/
def fsEmptyDownload : FS :=
  fun p => if p = "tmp/downloaded-file" then some [] else none

/-! ### Trust bootstrap (`InitTrustOnFirstUse`, src/main.go:249-288)

Filesystem paths are taken relative to `metadataDir`; the network and the
final write are oracles for the corresponding external calls.  Go checks
`os.Stat(root.json) == nil` — in this filesystem model, the file being
present.  `url.JoinPath` and `http.NewRequest` on the constant inputs
cannot fail; request execution and body reading are folded into one
network result. -/

/-- Externally visible actions of `InitTrustOnFirstUse`. -/
inductive TEvent where
  | statRoot
  | httpGetRoot
  | writeRoot
  deriving DecidableEq, Repr

/-- Results of the external calls `InitTrustOnFirstUse` makes. -/
structure TrustOracle where
  netResult : Except String (List Nat)
  writeOk : Bool

/-- The trust anchor file, `root.json` in the metadata directory. -/
def rootJsonPath : String := "root.json"

/-- Point update of a filesystem snapshot. -/
def updateFS (fs : FS) (p : String) (content : List Nat) : FS :=
  fun q => if q = p then some content else fs q

/-- `InitTrustOnFirstUse`: returns the filesystem after the call, the
actions performed, and the error result (`none` = nil error). -/
def InitTrustOnFirstUse (fs : FS) (o : TrustOracle) :
    FS × List TEvent × Option String :=
  match fs rootJsonPath with
  | some _ => (fs, [.statRoot], none)
  | none =>
    match o.netResult with
    | .error _ =>
        (fs, [.statRoot, .httpGetRoot], some "failed to executed the http request")
    | .ok data =>
        if o.writeOk then
          (updateFS fs rootJsonPath data, [.statRoot, .httpGetRoot, .writeRoot], none)
        else
          (fs, [.statRoot, .httpGetRoot, .writeRoot],
            some "failed to write root.json metadata")

/-! ### Manifest resolver (`DownloadTargetIndex`, src/main.go:294-352)

The TUF updater library is external; each call it makes is an oracle
field, and the calls actually performed are recorded in order. -/

/-- The external calls `DownloadTargetIndex` can make, in program order. -/
inductive UEvent where
  | readRootFile
  | newConfig
  | newUpdater
  | refresh
  | getTargetInfo
  | findCachedTarget
  | downloadTarget
  deriving DecidableEq, Repr

/-- Results of the external calls `DownloadTargetIndex` depends on.
`findCached` returns the `(path, bytes)` pair of `up.FindCachedTarget`
(`path = ""` means no cached copy); `download` is `up.DownloadTarget`. -/
structure UpdaterOracle where
  rootBytes : Option (List Nat)
  configOk : Bool
  updaterOk : Bool
  refreshOk : Bool
  targetInfoOk : Bool
  findCached : Except String (String × List Nat)
  download : Except String (List Nat)

/-- The `([]byte, int, error)` triple returned by `DownloadTargetIndex`. -/
structure DTIResult where
  bytes : Option (List Nat)
  cacheHit : Nat
  err : Option String
  deriving DecidableEq, Repr

/-- `DownloadTargetIndex`: performs the updater calls in order, returning
early with `(nil, 0, err)` on each failure; on a cache hit (non-empty
cached path) returns the cached bytes with flag 1 and nil error without
calling `DownloadTarget`; otherwise downloads and returns flag 0. -/
def DownloadTargetIndex (o : UpdaterOracle) : List UEvent × DTIResult :=
  match o.rootBytes with
  | none => ([.readRootFile], ⟨none, 0, some "read root.json failed"⟩)
  | some _ =>
    if ¬o.configOk then
      ([.readRootFile, .newConfig], ⟨none, 0, some "config.New failed"⟩)
    else if ¬o.updaterOk then
      ([.readRootFile, .newConfig, .newUpdater],
        ⟨none, 0, some "failed to create Updater instance"⟩)
    else if ¬o.refreshOk then
      ([.readRootFile, .newConfig, .newUpdater, .refresh],
        ⟨none, 0, some "failed to refresh trusted metadata"⟩)
    else if ¬o.targetInfoOk then
      ([.readRootFile, .newConfig, .newUpdater, .refresh, .getTargetInfo],
        ⟨none, 0, some "getting info for target index"⟩)
    else
      match o.findCached with
      | .error _ =>
          ([.readRootFile, .newConfig, .newUpdater, .refresh, .getTargetInfo,
            .findCachedTarget],
            ⟨none, 0, some "getting target index cache"⟩)
      | .ok (path, tb) =>
          if path ≠ "" then
            ([.readRootFile, .newConfig, .newUpdater, .refresh, .getTargetInfo,
              .findCachedTarget],
              ⟨some tb, 1, none⟩)
          else
            match o.download with
            | .error _ =>
                ([.readRootFile, .newConfig, .newUpdater, .refresh,
                  .getTargetInfo, .findCachedTarget, .downloadTarget],
                  ⟨none, 0, some "failed to download target index file"⟩)
            | .ok tb2 =>
                ([.readRootFile, .newConfig, .newUpdater, .refresh,
                  .getTargetInfo, .findCachedTarget, .downloadTarget],
                  ⟨some tb2, 0, none⟩)

/-! ### One iteration of the polling loop (src/main.go:135-220) -/

/-- Externally visible actions of one loop iteration. -/
inductive Event where
  | logError (msg : String)
  | writeIndexFile
  | compareVersions (cur idx : String)
  | printNewProduct (isNew : Bool)
  | consentPrompt
  | fetchArtifact (url : String)
  | exitProcess
  | verifyResult (answer : Nat)
  | printReminder
  | printExpiration
  | reportMostUpdated
  deriving DecidableEq, Repr

/-- `true` exactly on the consent-prompt event. -/
def isConsent : Event → Bool
  | .consentPrompt => true
  | _ => false

/-- `true` exactly on artifact-fetch events. -/
def isFetch : Event → Bool
  | .fetchArtifact _ => true
  | _ => false

/-- The Artifact Registry URL built by `fmt.Sprintf` at src/main.go:184. -/
def artifactURL (indexVersion : String) : String :=
  "https://artifactregistry.googleapis.com/download/v1/projects/polished-medium-445107-i9/locations/europe-southwest1/repositories/nebula-storage/files/nebula-package:"
    ++ indexVersion ++ ":nebula-standalone:download?alt=media"

/-- The external inputs of one loop iteration: the `DownloadTargetIndex`
result for this cycle, whether the index write succeeds, the
`json.Unmarshal` result on the returned bytes, the operator's numeric
answer (`fmt.Scanf`), the `downloadArtifact` result, and the filesystem
seen by the verifier. -/
structure LoopOracle where
  dti : DTIResult
  writeOk : Bool
  parsed : Option Manifest
  userAnswer : Int
  fetchErr : Option String
  fs : FS

/-- One iteration of the `for` loop, as its trace of actions.  A download
error is logged and execution *continues* (src/main.go:139-141).  On a
cache miss the index file is written, the manifest parsed, the comparator
invoked, its outcome printed — and then the consent prompt runs
unconditionally; answer 1 fetches (a fetch error calls `os.Exit(1)`,
ending the trace) and verifies, any other answer prints the pending
reminder and the expiration date.  On a cache hit the iteration only
reports that the local index is the most updated one. -/
def loopIter (env : LoopOracle) (currentVersion : String) : List Event :=
  (match env.dti.err with
   | some _ => [.logError "Download index file failed"]
   | none => [])
  ++
  if env.dti.cacheHit = 0 then
    [.writeIndexFile]
    ++ (if env.writeOk then [] else [.logError "Error writing to file"])
    ++ (match env.parsed with
        | none => [.logError "Error parsing JSON"]
        | some _ => [])
    ++
    (let indexVersion := (mapLookup env.parsed "nebula-standalone").Version
    [.compareVersions currentVersion indexVersion]
    ++ [.printNewProduct (NewVersion currentVersion indexVersion = 1)]
    ++ [.consentPrompt]
    ++ (if env.userAnswer = 1 then
          [.fetchArtifact (artifactURL indexVersion)]
          ++ (match env.fetchErr with
              | some _ => [.exitProcess]
              | none => [.verifyResult
                  (verifyingDownloadedFile env.parsed env.fs "tmp/downloaded-file")])
        else [.printReminder, .printExpiration]))
  else [.reportMostUpdated]

/-- A cycle input: cache miss, manifest declaring an *older* version than
the running one, operator answering yes.  The manifest bytes `[123, 125]`
are the two characters of an empty JSON object only as a placeholder — the
parse result is the `parsed` field. -/
def envOlderYes : LoopOracle :=
  ⟨⟨some [123, 125], 0, none⟩, true,
    some [("nebula-standalone",
      ⟨0, ⟨"e3b0c44298fc1c149afbf4c8996fb92427ae41e4649b934ca495991b7852b855"⟩,
       "2024.01.01-00.00.00"⟩)],
    1, none, fsEmptyDownload⟩

/-- Same cycle input but with the operator declining (answer 2). -/
def envOlderNo : LoopOracle :=
  ⟨⟨some [123, 125], 0, none⟩, true,
    some [("nebula-standalone",
      ⟨0, ⟨"e3b0c44298fc1c149afbf4c8996fb92427ae41e4649b934ca495991b7852b855"⟩,
       "2024.01.01-00.00.00"⟩)],
    2, none, fsEmptyDownload⟩

/-- A cycle input with a cache miss and a parsed manifest that has no
`"nebula-standalone"` entry. -/
def envNoKey : LoopOracle :=
  ⟨⟨some [123, 125], 0, none⟩, true, some [], 2, none, fsEmptyDownload⟩

/-- A filesystem already holding a trust anchor. -/
def fsWithRoot : FS := fun p => if p = rootJsonPath then some [114] else none

/-- The empty filesystem. -/
def fsNoRoot : FS := fun _ => none

/-! ### Theorems -/

/- `parseVersion` agrees with Go `time.Parse` on the hour field's
`getnum(value, false)` behaviour: a one-digit hour is accepted. -/
example : parseVersion "2024.01.02-5.04.05" = some ⟨2024, 1, 2, 5, 4, 5⟩ := by
  decide

example : parseVersion "2024.01.02-15.04.05" = some ⟨2024, 1, 2, 15, 4, 5⟩ := by
  decide

example : parseVersion "2024.01.02-5x.04.05" = none := by decide

theorem length_beBytes (k v : Nat) : (beBytes k v).length = k := by
  induction k generalizing v with
  | zero => rfl
  | succ n ih => simp [beBytes, ih]

theorem length_sha256Bytes (msg : List Nat) : (sha256Bytes msg).length = 32 := by
  simp [sha256Bytes, length_beBytes]

theorem length_hexOfBytes (l : List Nat) : (hexOfBytes l).length = 2 * l.length := by
  show (l.flatMap fun b => [hexDigit (b / 16 % 16), hexDigit (b % 16)]).length
      = 2 * l.length
  induction l with
  | nil => rfl
  | cons b t ih => simp only [List.flatMap_cons, List.length_append,
      List.length_cons, List.length_nil, ih]; omega

theorem length_sha256Hex (msg : List Nat) : (sha256Hex msg).length = 64 := by
  rw [sha256Hex, length_hexOfBytes, length_sha256Bytes]

theorem sha256Hex_ne_empty (msg : List Nat) : "" ≠ sha256Hex msg := by
  intro h
  have := congrArg String.length h
  rw [length_sha256Hex] at this
  exact absurd this (by decide)

theorem hexDigit_mem (n : Nat) (h : n < 16) :
    hexDigit n ∈ "0123456789abcdef".data := by
  interval_cases n <;> decide

theorem sha256Hex_lowercase (msg : List Nat) :
    ∀ c ∈ (sha256Hex msg).data, c ∈ "0123456789abcdef".data := by
  intro c hc
  have : c ∈ (sha256Bytes msg).flatMap
      fun b => [hexDigit (b / 16 % 16), hexDigit (b % 16)] := hc
  rw [List.mem_flatMap] at this
  obtain ⟨b, -, hb⟩ := this
  simp only [List.mem_cons, List.not_mem_nil, or_false] at hb
  rcases hb with rfl | rfl
  · exact hexDigit_mem _ (Nat.mod_lt _ (by omega))
  · exact hexDigit_mem _ (Nat.mod_lt _ (by omega))

/-- C2 (counterexample): with the valid timestamps
`a = "2024.01.01-00.00.00" < b = "2024.01.02-00.00.00"`, the comparator's
outcome on `(b, a)` — which the claim calls OLDER — coincides with its
outcome on `(a, a)` — which the claim calls SAME: both are `0`.  So
`NewVersion` does not have three distinguishable outcomes. -/
theorem newVersion_older_same_indistinguishable :
    (parseVersion "2024.01.01-00.00.00").isSome = true
    ∧ (parseVersion "2024.01.02-00.00.00").isSome = true
    ∧ toSec ((parseVersion "2024.01.01-00.00.00").getD zeroGoTime)
        < toSec ((parseVersion "2024.01.02-00.00.00").getD zeroGoTime)
    ∧ NewVersion "2024.01.02-00.00.00" "2024.01.01-00.00.00"
        = NewVersion "2024.01.01-00.00.00" "2024.01.01-00.00.00" := by
  decide

/-- C2 (amended): for version strings that both parse under the fixed
layout with `a` strictly earlier than `b`, `NewVersion a b = 1` (newer) and
`NewVersion b a = 0` and `NewVersion a a = 0`: the comparator distinguishes
only "strictly newer" (1) from "not newer" (0); OLDER and SAME collapse to
the same outcome `0`. -/
theorem newVersion_strict_order (a b : String) (ta tb : GoTime)
    (ha : parseVersion a = some ta) (hb : parseVersion b = some tb)
    (hlt : toSec ta < toSec tb) :
    NewVersion a b = 1 ∧ NewVersion b a = 0 ∧ NewVersion a a = 0 := by
  refine ⟨?_, ?_, ?_⟩
  · simp only [NewVersion, ha, hb, Option.getD_some]
    rw [if_pos hlt]
  · simp only [NewVersion, ha, hb, Option.getD_some]
    rw [if_neg (by omega)]
    split <;> rfl
  · simp only [NewVersion, ha, Option.getD_some]
    rw [if_neg (by omega)]
    split <;> rfl

/-- Witness for `newVersion_strict_order` at the concrete pair
`"2024.01.01-00.00.00" < "2024.01.02-00.00.00"`. -/
theorem newVersion_strict_order_witness :
    NewVersion "2024.01.01-00.00.00" "2024.01.02-00.00.00" = 1
    ∧ NewVersion "2024.01.02-00.00.00" "2024.01.01-00.00.00" = 0
    ∧ NewVersion "2024.01.01-00.00.00" "2024.01.01-00.00.00" = 0 :=
  newVersion_strict_order "2024.01.01-00.00.00" "2024.01.02-00.00.00"
    ⟨2024, 1, 1, 0, 0, 0⟩ ⟨2024, 1, 2, 0, 0, 0⟩
    (by decide) (by decide) (by decide)

/-- C3 (counterexample): the string `"garbage"` fails to parse, yet
`NewVersion "garbage" "2024.01.01-00.00.00"` returns `1` ("update"), not
the claimed "no update" outcome `0`: the failed operand is silently
replaced by the Go zero time, which is earlier than the other operand. -/
theorem newVersion_parse_failure_not_always_zero :
    parseVersion "garbage" = none
    ∧ NewVersion "garbage" "2024.01.01-00.00.00" = 1 := by
  decide

/-- C3 (amended): a parse failure leaves the failed operand at the Go zero
time (January 1, year 1) and the comparison still runs.  Hence a malformed
current version compared against an index version that parses to an
instant after the zero time yields `1`; a malformed index version against
a current version at or after the zero time yields `0`; two malformed
inputs yield `0`.  The outcome is not uniformly "no update". -/
theorem newVersion_parse_failure_cases (cur idx : String) (t : GoTime) :
    (parseVersion cur = none → parseVersion idx = some t →
      toSec zeroGoTime < toSec t → NewVersion cur idx = 1)
    ∧ (parseVersion idx = none → parseVersion cur = some t →
      toSec zeroGoTime ≤ toSec t → NewVersion cur idx = 0)
    ∧ (parseVersion cur = none → parseVersion idx = none →
      NewVersion cur idx = 0) := by
  refine ⟨?_, ?_, ?_⟩
  · intro h1 h2 h3
    simp only [NewVersion, h1, h2, Option.getD_some, Option.getD_none]
    rw [if_pos h3]
  · intro h1 h2 h3
    simp only [NewVersion, h1, h2, Option.getD_some, Option.getD_none]
    rw [if_neg (by omega)]
    split <;> rfl
  · intro h1 h2
    simp only [NewVersion, h1, h2, Option.getD_none]
    simp

/-- Witness for `newVersion_parse_failure_cases`: the three cases at
concrete inputs. -/
theorem newVersion_parse_failure_cases_witness :
    NewVersion "garbage" "2024.01.01-00.00.00" = 1
    ∧ NewVersion "2024.01.01-00.00.00" "garbage" = 0
    ∧ NewVersion "garbage" "garbage" = 0 :=
  ⟨(newVersion_parse_failure_cases "garbage" "2024.01.01-00.00.00"
      ⟨2024, 1, 1, 0, 0, 0⟩).1 (by decide) (by decide) (by decide),
   (newVersion_parse_failure_cases "2024.01.01-00.00.00" "garbage"
      ⟨2024, 1, 1, 0, 0, 0⟩).2.1 (by decide) (by decide) (by decide),
   (newVersion_parse_failure_cases "garbage" "garbage"
      ⟨2024, 1, 1, 0, 0, 0⟩).2.2 (by decide) (by decide)⟩

/-- C4 (counterexample): the manifest declares the digest of the empty
file in UPPERCASE hex.  Case-insensitively it equals the freshly computed
digest (lower-casing it gives exactly `sha256Hex []`), yet
`verifyingDownloadedFile` returns 0, because the code compares the two
hex strings with `==`, case-sensitively. -/
theorem verifying_not_case_insensitive :
    lowerStr "E3B0C44298FC1C149AFBF4C8996FB92427AE41E4649B934CA495991B7852B855"
      = sha256Hex []
    ∧ fsEmptyDownload "tmp/downloaded-file" = some []
    ∧ verifyingDownloadedFile
        (some [("nebula-standalone",
          ⟨0, ⟨"E3B0C44298FC1C149AFBF4C8996FB92427AE41E4649B934CA495991B7852B855"⟩,
           "2024.01.01-00.00.00"⟩)])
        fsEmptyDownload "tmp/downloaded-file" = 0 := by
  decide

/-- C4 (amended): `verifyingDownloadedFile` returns 1 iff the file is
readable and the manifest-declared digest for "nebula-standalone" equals
the freshly computed digest *exactly* (case-sensitively); any mismatch —
including a pure case difference — and any read failure returns 0.  The
computed digest only ever contains lowercase hex characters, so only a
lowercase declared digest can ever verify. -/
theorem verifyingDownloadedFile_exact (data : Option Manifest) (fs : FS)
    (path : String) :
    (verifyingDownloadedFile data fs path = 1 ↔
      ∃ content, fs path = some content
        ∧ (mapLookup data "nebula-standalone").Hashes.Sha256 = sha256Hex content)
    ∧ (verifyingDownloadedFile data fs path = 0
        ∨ verifyingDownloadedFile data fs path = 1)
    ∧ ∀ msg : List Nat, ∀ c ∈ (sha256Hex msg).data, c ∈ "0123456789abcdef".data := by
  refine ⟨?_, ?_, fun msg => sha256Hex_lowercase msg⟩
  · unfold verifyingDownloadedFile ComputeSHA256
    cases h : fs path with
    | none => simp [h]
    | some content =>
      simp only [h]
      constructor
      · intro h1
        refine ⟨content, rfl, ?_⟩
        by_contra hne
        rw [if_neg hne] at h1
        exact absurd h1 (by decide)
      · rintro ⟨c, hc, heq⟩
        cases hc
        rw [if_pos heq]
  · unfold verifyingDownloadedFile ComputeSHA256
    cases h : fs path with
    | none => left; rfl
    | some content =>
      by_cases hd : (mapLookup data "nebula-standalone").Hashes.Sha256
          = sha256Hex content
      · right; simp [hd]
      · left; simp [hd]

/-- Witness for `verifyingDownloadedFile_exact`: with the digest declared
in lowercase and an empty readable file, verification succeeds. -/
theorem verifyingDownloadedFile_exact_witness :
    verifyingDownloadedFile
      (some [("nebula-standalone",
        ⟨0, ⟨"e3b0c44298fc1c149afbf4c8996fb92427ae41e4649b934ca495991b7852b855"⟩,
         "2024.01.01-00.00.00"⟩)])
      fsEmptyDownload "tmp/downloaded-file" = 1 :=
  (verifyingDownloadedFile_exact _ fsEmptyDownload "tmp/downloaded-file").1.mpr
    ⟨[], by decide, by decide⟩

/-- C10 (confirmed): if the index payload is malformed JSON (`data = none`,
the nil map) or lacks the `"nebula-standalone"` key, the declared digest is
the empty string; `ComputeSHA256` on success always returns a 64-character
hex string, so verification returns 0 for every readable file. -/
theorem verifying_fails_closed (data : Option Manifest) (fs : FS)
    (path : String) (content : List Nat)
    (hmiss : data = none
      ∨ ∃ m, data = some m ∧ (m.find? fun p => p.1 == "nebula-standalone") = none)
    (hread : fs path = some content) :
    (mapLookup data "nebula-standalone").Hashes.Sha256 = ""
    ∧ (sha256Hex content).length = 64
    ∧ verifyingDownloadedFile data fs path = 0 := by
  have hdig : (mapLookup data "nebula-standalone").Hashes.Sha256 = "" := by
    rcases hmiss with rfl | ⟨m, rfl, hfind⟩
    · rfl
    · simp [mapLookup, hfind, zeroIndexInfo]
  refine ⟨hdig, length_sha256Hex content, ?_⟩
  unfold verifyingDownloadedFile ComputeSHA256
  rw [hread]
  simp only [hdig]
  rw [if_neg (sha256Hex_ne_empty content)]

/-- Witness for `verifying_fails_closed`: nil map (malformed JSON), empty
readable file. -/
theorem verifying_fails_closed_witness :
    (mapLookup none "nebula-standalone").Hashes.Sha256 = ""
    ∧ (sha256Hex []).length = 64
    ∧ verifyingDownloadedFile none fsEmptyDownload "tmp/downloaded-file" = 0 :=
  verifying_fails_closed none fsEmptyDownload "tmp/downloaded-file" []
    (Or.inl rfl) (by decide)

/-- C8 (confirmed): if `root.json` already exists in the trust directory,
`InitTrustOnFirstUse` returns nil immediately — no network request, trust
material unchanged; and after any successful run, a second run is such a
no-op (idempotence). -/
theorem initTrustOnFirstUse_idempotent :
    (∀ (fs : FS) (o : TrustOracle) (b : List Nat), fs rootJsonPath = some b →
      InitTrustOnFirstUse fs o = (fs, [TEvent.statRoot], none))
    ∧ (∀ (fs : FS) (o o' : TrustOracle),
      (InitTrustOnFirstUse fs o).2.2 = none →
      InitTrustOnFirstUse (InitTrustOnFirstUse fs o).1 o'
        = ((InitTrustOnFirstUse fs o).1, [TEvent.statRoot], none)) := by
  have base : ∀ (fs : FS) (o : TrustOracle) (b : List Nat),
      fs rootJsonPath = some b →
      InitTrustOnFirstUse fs o = (fs, [TEvent.statRoot], none) := by
    intro fs o b hb
    unfold InitTrustOnFirstUse
    rw [hb]
  refine ⟨base, ?_⟩
  intro fs o o' hok
  rcases hfs : fs rootJsonPath with - | b
  · rcases hnet : o.netResult with e | data
    · exfalso
      unfold InitTrustOnFirstUse at hok
      rw [hfs, hnet] at hok
      simp at hok
    · rcases hw : o.writeOk with - | -
      · exfalso
        unfold InitTrustOnFirstUse at hok
        rw [hfs, hnet, hw] at hok
        simp at hok
      · have h1 : InitTrustOnFirstUse fs o
            = (updateFS fs rootJsonPath data,
               [TEvent.statRoot, TEvent.httpGetRoot, TEvent.writeRoot], none) := by
          unfold InitTrustOnFirstUse
          rw [hfs, hnet, hw]
          simp
        rw [h1]
        exact base _ o' data (by simp [updateFS])
  · have h1 : InitTrustOnFirstUse fs o = (fs, [TEvent.statRoot], none) :=
      base fs o b hfs
    rw [h1]
    exact base fs o' b hfs

/-- Witness for `initTrustOnFirstUse_idempotent`: when the anchor exists
the call is a stat-only no-op, and running again after a successful
bootstrap from the empty filesystem is a stat-only no-op even with the
network down. -/
theorem initTrustOnFirstUse_idempotent_witness :
    InitTrustOnFirstUse fsWithRoot ⟨.ok [1], true⟩
      = (fsWithRoot, [TEvent.statRoot], none)
    ∧ InitTrustOnFirstUse (InitTrustOnFirstUse fsNoRoot ⟨.ok [114], true⟩).1
        ⟨.error "network down", false⟩
      = ((InitTrustOnFirstUse fsNoRoot ⟨.ok [114], true⟩).1,
         [TEvent.statRoot], none) :=
  ⟨initTrustOnFirstUse_idempotent.1 fsWithRoot ⟨.ok [1], true⟩ [114] (by decide),
   initTrustOnFirstUse_idempotent.2 fsNoRoot ⟨.ok [114], true⟩
     ⟨.error "network down", false⟩ (by decide)⟩

/-- C9 (confirmed): every error return of `DownloadTargetIndex` carries
nil bytes and cache-hit flag 0, and the flag is 1 only on the cache-hit
path: a successful `FindCachedTarget` with a non-empty path, returning the
cached bytes with a nil error and without calling `DownloadTarget`. -/
theorem downloadTargetIndex_flag_invariants (o : UpdaterOracle)
    (ev : List UEvent) (r : DTIResult) (h : DownloadTargetIndex o = (ev, r)) :
    (r.err ≠ none → r.bytes = none ∧ r.cacheHit = 0)
    ∧ (r.cacheHit = 1 → r.err = none
        ∧ ∃ path tb, o.findCached = .ok (path, tb) ∧ path ≠ ""
            ∧ r.bytes = some tb ∧ UEvent.downloadTarget ∉ ev) := by
  unfold DownloadTargetIndex at h
  repeat' split at h
  all_goals injection h with h1 h2
  all_goals subst h1 h2
  all_goals simp_all

/-- Witness for `downloadTargetIndex_flag_invariants` at a concrete
cache-hit oracle. -/
theorem downloadTargetIndex_flag_invariants_witness :
    (DTIResult.mk (some [9]) 1 none).err = none
    ∧ ∃ path tb,
        (UpdaterOracle.mk (some [114]) true true true true
          (.ok ("cached", [9])) (.ok [7])).findCached = .ok (path, tb)
        ∧ path ≠ "" ∧ (DTIResult.mk (some [9]) 1 none).bytes = some tb
        ∧ UEvent.downloadTarget ∉ [UEvent.readRootFile, UEvent.newConfig,
            UEvent.newUpdater, UEvent.refresh, UEvent.getTargetInfo,
            UEvent.findCachedTarget] :=
  (downloadTargetIndex_flag_invariants
    ⟨some [114], true, true, true, true, .ok ("cached", [9]), .ok [7]⟩
    [UEvent.readRootFile, UEvent.newConfig, UEvent.newUpdater, UEvent.refresh,
     UEvent.getTargetInfo, UEvent.findCachedTarget]
    ⟨some [9], 1, none⟩ (by decide)).2 rfl

set_option maxRecDepth 20000 in
/-- C1 (counterexample): with the running version
`"2024.06.01-00.00.00"` and a manifest declaring the *older*
`"2024.01.01-00.00.00"`, the comparator reports no newer version
(`NewVersion = 0`), yet answering the consent prompt affirmatively makes
the cycle fetch the artifact anyway; and in the same cycle with consent
declined, the index file is still written (before the prompt). -/
theorem fetch_without_newer_version :
    NewVersion "2024.06.01-00.00.00" "2024.01.01-00.00.00" = 0
    ∧ Event.fetchArtifact (artifactURL "2024.01.01-00.00.00")
        ∈ loopIter envOlderYes "2024.06.01-00.00.00"
    ∧ Event.writeIndexFile ∈ loopIter envOlderNo "2024.06.01-00.00.00" := by
  decide

/-- C1 (amended): in every cycle, an artifact fetch happens exactly when
the cycle is a cache miss and the operator answers 1 — the version
comparison's outcome does not gate the prompt or the fetch; the consent
prompt is invoked on every cache-miss cycle; no fetch ever precedes the
first consent prompt of the cycle; and the manifest index file is written
on every cache-miss cycle (hence also when consent is then declined),
and only then. -/
theorem consent_gates_fetch (env : LoopOracle) (cur : String) :
    ((∃ u, Event.fetchArtifact u ∈ loopIter env cur) ↔
      env.dti.cacheHit = 0 ∧ env.userAnswer = 1)
    ∧ (env.dti.cacheHit = 0 → Event.consentPrompt ∈ loopIter env cur)
    ∧ ((loopIter env cur).takeWhile fun e => !isConsent e).all
        (fun e => !isFetch e) = true
    ∧ (Event.writeIndexFile ∈ loopIter env cur ↔ env.dti.cacheHit = 0) := by
  obtain ⟨⟨bytes, flag, err⟩, wOk, parsed, ans, fErr, fs⟩ := env
  by_cases hf : flag = 0 <;> by_cases ha : ans = 1 <;>
    cases err <;> cases fErr <;> cases parsed <;> cases wOk <;>
      simp [loopIter, isConsent, isFetch, hf, ha]

/-- Witness for `consent_gates_fetch` at a concrete declined cycle: no
fetch occurs, the consent prompt does, and the index file is written. -/
theorem consent_gates_fetch_witness :
    (¬ ∃ u, Event.fetchArtifact u ∈ loopIter envOlderNo "2024.06.01-00.00.00")
    ∧ Event.consentPrompt ∈ loopIter envOlderNo "2024.06.01-00.00.00"
    ∧ Event.writeIndexFile ∈ loopIter envOlderNo "2024.06.01-00.00.00" := by
  obtain ⟨hiff, hcons, -, hwrite⟩ :=
    consent_gates_fetch envOlderNo "2024.06.01-00.00.00"
  exact ⟨fun hex => absurd (hiff.mp hex).2 (by decide), hcons (by decide),
    hwrite.mpr (by decide)⟩

/-- C5 (counterexample): with a parsed manifest that lacks the
`"nebula-standalone"` key, the lookup yields the empty version string, and
the loop still passes that empty string straight to the version comparator
as its index-side operand. -/
theorem empty_version_reaches_comparator :
    (mapLookup (some ([] : Manifest)) "nebula-standalone").Version = ""
    ∧ Event.compareVersions "2024.01.01-00.00.00" ""
        ∈ loopIter envNoKey "2024.01.01-00.00.00" := by
  decide

/-- C5 (amended): a lookup for a product identifier absent from a parsed
manifest yields the empty/zero record rather than an error — but the
empty version string is *not* treated as "no data": on a cache-miss cycle
the loop passes it directly to `NewVersion` as the comparison operand. -/
theorem mapLookup_absent_zero_but_compared (m : Manifest) (env : LoopOracle)
    (cur : String) (hab : ∀ p ∈ m, p.1 ≠ "nebula-standalone")
    (hp : env.parsed = some m) (hmiss : env.dti.cacheHit = 0) :
    mapLookup (some m) "nebula-standalone" = zeroIndexInfo
    ∧ (mapLookup (some m) "nebula-standalone").Version = ""
    ∧ Event.compareVersions cur "" ∈ loopIter env cur := by
  have hfind : m.find? (fun p => p.1 == "nebula-standalone") = none := by
    rw [List.find?_eq_none]
    intro p hpm
    simpa using hab p hpm
  have hz : mapLookup (some m) "nebula-standalone" = zeroIndexInfo := by
    simp [mapLookup, hfind]
  refine ⟨hz, by rw [hz]; rfl, ?_⟩
  obtain ⟨⟨bytes, flag, err⟩, wOk, parsed, ans, fErr, fs⟩ := env
  simp only at hp hmiss
  subst hp hmiss
  by_cases ha : ans = 1 <;> cases err <;> cases fErr <;> cases wOk <;>
    simp [loopIter, hz, ha, zeroIndexInfo]

/-- Witness for `mapLookup_absent_zero_but_compared` at the concrete
key-less manifest cycle. -/
theorem mapLookup_absent_zero_but_compared_witness :
    mapLookup (some ([] : Manifest)) "nebula-standalone" = zeroIndexInfo
    ∧ (mapLookup (some ([] : Manifest)) "nebula-standalone").Version = ""
    ∧ Event.compareVersions "2025.01.01-00.00.00" ""
        ∈ loopIter envNoKey "2025.01.01-00.00.00" :=
  mapLookup_absent_zero_but_compared [] envNoKey "2025.01.01-00.00.00"
    (by simp) rfl rfl

/-- C6 (confirmed): when `FindCachedTarget` succeeds with a non-empty
path (a locally cached copy satisfies the current target descriptor),
`DownloadTargetIndex` returns the cached bytes with flag 1 and nil error
without calling `DownloadTarget`, and the loop iteration fed that result
only reports that the local index file is the most updated one — no
comparison, no consent prompt, no fetch. -/
theorem cacheHit_no_refetch (o : UpdaterOracle) (path : String)
    (tb : List Nat) (env : LoopOracle) (cur : String)
    (hroot : o.rootBytes ≠ none) (hcfg : o.configOk = true)
    (hupd : o.updaterOk = true) (href : o.refreshOk = true)
    (hti : o.targetInfoOk = true) (hfc : o.findCached = .ok (path, tb))
    (hpath : path ≠ "") (henv : env.dti = (DownloadTargetIndex o).2) :
    (DownloadTargetIndex o).2 = ⟨some tb, 1, none⟩
    ∧ UEvent.downloadTarget ∉ (DownloadTargetIndex o).1
    ∧ loopIter env cur = [Event.reportMostUpdated] := by
  obtain ⟨rb, hrb⟩ := Option.ne_none_iff_exists'.mp hroot
  have hres : DownloadTargetIndex o
      = ([.readRootFile, .newConfig, .newUpdater, .refresh, .getTargetInfo,
          .findCachedTarget], ⟨some tb, 1, none⟩) := by
    unfold DownloadTargetIndex
    rw [hrb, hfc]
    simp [hcfg, hupd, href, hti, hpath]
  rw [hres] at henv
  refine ⟨by rw [hres], by rw [hres]; simp, ?_⟩
  obtain ⟨dti, wOk, parsed, ans, fErr, fs⟩ := env
  simp only at henv
  subst henv
  simp [loopIter]

/-- Witness for `cacheHit_no_refetch` at a concrete cache-hit oracle. -/
theorem cacheHit_no_refetch_witness :
    (DownloadTargetIndex ⟨some [114], true, true, true, true,
        .ok ("cached-path", [9]), .ok [7]⟩).2 = ⟨some [9], 1, none⟩
    ∧ UEvent.downloadTarget ∉ (DownloadTargetIndex ⟨some [114], true, true,
        true, true, .ok ("cached-path", [9]), .ok [7]⟩).1
    ∧ loopIter ⟨⟨some [9], 1, none⟩, true, none, 1, none, fsEmptyDownload⟩
        "2024.01.01-00.00.00" = [Event.reportMostUpdated] :=
  cacheHit_no_refetch
    ⟨some [114], true, true, true, true, .ok ("cached-path", [9]), .ok [7]⟩
    "cached-path" [9]
    ⟨⟨some [9], 1, none⟩, true, none, 1, none, fsEmptyDownload⟩
    "2024.01.01-00.00.00"
    (by decide) rfl rfl rfl rfl rfl (by decide) (by decide)

end TUFClient
